import Mathlib

/-
Verification development for the atlas_researcher pipeline.

This file shallowly embeds the parts of the TypeScript source that the
specification talks about: the OpenRouter completion client with its model
fallback policy (src/lib/openrouter.ts), the search agent
(src/lib/agents/searcher.ts), the evaluator agent (src/lib/agents/evaluator.ts),
the synthesizer citation numbering (src/lib/agents/synthesizer.ts), the
research-session store (src/lib/research-session.ts) and the submit endpoint
(src/app/api/research/route.ts).

External network calls (search backends, page fetches, completion calls) are
modelled as oracle functions passed in as parameters; a thrown JS exception is
an Except.error carrying the error message. Times are epoch milliseconds as
integers. JS floating point scores are modelled as rationals.
-/

namespace Atlas

/-- JS String.prototype.includes on the underlying character lists:
true when the pattern occurs contiguously somewhere in the string. -/
def hasSub (pat : List Char) : List Char → Bool
  | [] => pat.isEmpty
  | c :: rest => pat.isPrefixOf (c :: rest) || hasSub pat rest

/-- jsIncludes s pat models the JavaScript expression s.includes(pat). -/
def jsIncludes (s pat : String) : Bool :=
  hasSub pat.data s.data

/-! ## OpenRouter client (src/lib/openrouter.ts) -/

/-- Message role of an OpenRouter chat message. -/
inductive Role
  | system
  | user
  | assistant
deriving DecidableEq, Repr

/-- One chat message, as in the OpenRouterRequest interface. -/
structure ChatMessage where
  role : Role
  content : String
deriving DecidableEq, Repr

/-- The OpenRouterRequest interface (model, messages, optional sampling
parameters). -/
structure OpenRouterRequest where
  model : String
  messages : List ChatMessage
  maxTokens : Option Nat := none
  temperature : Option ℚ := none
deriving DecidableEq, Repr

/-- One choice of an OpenRouterResponse: a message with text content. -/
structure ResponseChoice where
  content : String
deriving DecidableEq, Repr

/-- The OpenRouterResponse interface, reduced to the fields the pipeline
reads (choices with message content). -/
structure OpenRouterResponse where
  choices : List ResponseChoice
deriving DecidableEq, Repr

/-- A completion oracle: the behaviour of OpenRouterClient.chat for one
request. Except.error e models chat throwing an Error with message e; the
chat wrapper classifies HTTP failures into the messages
"Rate limit exceeded: ...", "Invalid API key", "Insufficient credits" and
"OpenRouter API error: ...". -/
def ChatOracle : Type :=
  OpenRouterRequest → Except String OpenRouterResponse

/-- The loop body of OpenRouterClient.chatWithFallback over the remaining
model list. For each model it retries request with that model; on an error
whose message includes "Rate limit exceeded" while further models remain
(i < models.length - 1 in the source) it continues with the next model,
otherwise it rethrows that error. The empty-list case is the
"All models failed" throw after the loop. -/
def chatAttempts (chat : ChatOracle) (request : OpenRouterRequest) :
    List String → Except String OpenRouterResponse
  | [] => .error "All models failed"
  | m :: rest =>
    match chat { request with model := m } with
    | .ok r => .ok r
    | .error e =>
      if jsIncludes e "Rate limit exceeded" && !rest.isEmpty then
        chatAttempts chat request rest
      else
        .error e

/-- OpenRouterClient.chatWithFallback: iterate over
[request.model, ...fallbackModels]. -/
def chatWithFallback (chat : ChatOracle) (request : OpenRouterRequest)
    (fallbackModels : List String) : Except String OpenRouterResponse :=
  chatAttempts chat request (request.model :: fallbackModels)

/-! ## Search agent (src/lib/agents/searcher.ts) -/

/-- The source tag of a normalized search result record. -/
inductive SourceTag
  | tavily
  | perplexity
deriving DecidableEq, Repr

/-- The SearchResult interface: one normalized web search result. -/
structure SearchResult where
  url : String
  title : String
  snippet : String
  source : SourceTag
deriving DecidableEq, Repr

/-- The SearchResults interface: all results gathered for one subtopic,
together with the query string actually sent to the backends. -/
structure SearchResults where
  subtopic : String
  results : List SearchResult
  searchQuery : String
deriving DecidableEq, Repr

/-- The stop word list of SearcherAgent.generateSearchQuery. -/
def stopWords : List String :=
  ["the", "and", "or", "but", "in", "on", "at", "to", "for", "of", "with",
   "by", "about"]

/-- SearcherAgent.generateSearchQuery: lowercase the subtopic, split on
whitespace, drop words of length at most 2 and stop words; when more than 3
words remain, quote the first three and append the rest; finally append the
current year and the previous year. currentYear stands for
new Date().getFullYear(); the originalQuery parameter is accepted but unused,
exactly as in the source. -/
def generateSearchQuery (currentYear : Int) (subtopic : String)
    (originalQuery : Option String) : String :=
  let words := (subtopic.toLower.split Char.isWhitespace).filter
    (fun w => decide (2 < w.length) && !(stopWords.contains w))
  let query :=
    if 3 < words.length then
      "\"" ++ String.intercalate " " (words.take 3) ++ "\" "
        ++ String.intercalate " " (words.drop 3)
    else subtopic
  query ++ " " ++ toString currentYear ++ " OR " ++ toString (currentYear - 1)

/-- A search backend oracle: the behaviour of one of tavilySearch,
tavilySearchBackup or perplexitySearch on a query. Except.error e models the
call throwing. -/
def SearchBackend : Type :=
  String → Except String (List SearchResult)

/-- The three search backends available to SearcherAgent.searchSubtopic, in
priority order: primary Tavily, backup Tavily, Perplexity. -/
structure SearchBackends where
  tavily : SearchBackend
  tavilyBackup : SearchBackend
  perplexity : SearchBackend

/-- One try block of searchSubtopic: run the backend; a result list is usable
only when the call did not throw and the list is non-empty (results.length > 0
in the source); a thrown error is caught and treated like no usable results. -/
def attemptBackend (b : SearchBackend) (q : String) : Option (List SearchResult) :=
  match b q with
  | .ok rs => if rs.isEmpty then none else some rs
  | .error _ => none

/-- The failure mode of one backend on a query: the call threw, or it
returned zero results. -/
def backendExhausted (b : SearchBackend) (q : String) : Prop :=
  (∃ e, b q = .error e) ∨ b q = .ok []

/-- SearcherAgent.searchSubtopic: build the search query, then try the
primary Tavily backend, the backup Tavily backend and Perplexity in that
order, returning the first usable result list truncated to its top 5
records; when every backend fails or returns zero results, throw
(fake search is disabled in the source, so no synthetic results are ever
fabricated here). -/
def searchSubtopic (B : SearchBackends) (currentYear : Int) (subtopic : String)
    (originalQuery : Option String) : Except String SearchResults :=
  let searchQuery := generateSearchQuery currentYear subtopic originalQuery
  match attemptBackend B.tavily searchQuery with
  | some rs => .ok ⟨subtopic, rs.take 5, searchQuery⟩
  | none =>
    match attemptBackend B.tavilyBackup searchQuery with
    | some rs => .ok ⟨subtopic, rs.take 5, searchQuery⟩
    | none =>
      match attemptBackend B.perplexity searchQuery with
      | some rs => .ok ⟨subtopic, rs.take 5, searchQuery⟩
      | none =>
        .error ("All search APIs failed for query: " ++ searchQuery
          ++ ". Real search is needed - fake search disabled.")

/-- The per-subtopic body of SearcherAgent.searchAllSubtopics: call
searchSubtopic and, when it throws, catch the error and record an entry with
an empty result list for that subtopic. -/
def searchOneSubtopic (B : SearchBackends) (currentYear : Int)
    (originalQuery : String) (subtopic : String) : SearchResults :=
  match searchSubtopic B currentYear subtopic (some originalQuery) with
  | .ok r => r
  | .error _ =>
    ⟨subtopic, [], generateSearchQuery currentYear subtopic (some originalQuery)⟩

/-- SearcherAgent.searchAllSubtopics: search each subtopic sequentially,
catching per-subtopic failures and recording them as empty result sets so
that the remaining subtopics are still searched. -/
def searchAllSubtopics (B : SearchBackends) (currentYear : Int)
    (subtopics : List String) (originalQuery : String) : List SearchResults :=
  subtopics.map (searchOneSubtopic B currentYear originalQuery)

/-! ## Evaluator agent (src/lib/agents/evaluator.ts) -/

/-- The EvaluatedContent interface: one scored source. Scores are rationals
standing for JS numbers. -/
structure EvaluatedContent where
  url : String
  title : String
  summary : String
  keyPoints : List String
  citations : List String
  relevanceScore : ℚ
  credibilityScore : ℚ
  contentText : Option String := none
deriving DecidableEq, Repr

/-- The EvaluationResult interface: the evaluated sources of one subtopic
with derived aggregates. -/
structure EvaluationResult where
  subtopic : String
  evaluatedContent : List EvaluatedContent
  totalSources : Nat
  averageRelevance : ℚ
  averageCredibility : ℚ
deriving DecidableEq, Repr

/-- EvaluatorAgent.validateScore: parseFloat of the raw score, defaulting to
the midpoint 5 when it is not a number, then clamped into [0, 10]; none
stands for a missing or non-numeric raw score (parseFloat returned NaN). -/
def validateScore (score : Option ℚ) : ℚ :=
  match score with
  | none => 5
  | some numScore => max 0 (min 10 numScore)

/-- The research-depth mode selecting the per-subtopic source cap. -/
inductive ResearchMode
  | normal
  | max
deriving DecidableEq, Repr

/-- The batch partition of the evaluation loop in evaluateSubtopic
(for i = 0; i < limitedResults.length; i += batchSize with batchSize = 4):
consecutive chunks of at most 4 sources. -/
def chunksOf4 : List SearchResult → List (List SearchResult)
  | [] => []
  | a :: l => ((a :: l).take 4) :: chunksOf4 ((a :: l).drop 4)
termination_by l => l.length
decreasing_by
  simp only [List.drop_succ_cons, List.length_drop, List.length_cons]
  omega

/-- A batch evaluation oracle: the behaviour of EvaluatorAgent.evaluateBatch
on one batch (page fetches plus one completion call plus parseBatchResponse);
Except.error models the call throwing or its response failing to parse. -/
def BatchEval : Type :=
  List SearchResult → Except String (List EvaluatedContent)

/-- An individual evaluation oracle: the behaviour of
EvaluatorAgent.fetchAndEvaluateContent on one source. -/
def IndividualEval : Type :=
  SearchResult → Except String EvaluatedContent

/-- A heuristic fallback oracle: the behaviour of
EvaluatorAgent.createFallbackEvaluation on one source (it never throws). -/
def FallbackEval : Type :=
  SearchResult → EvaluatedContent

/-- The batch loop of evaluateSubtopic, faithful to its JS control flow.
When the batch call succeeds, its records are appended. When it throws,
control reaches the catch block at evaluator.ts line 72, whose first
statement evaluates allResults.length; no binding named allResults is in
scope anywhere in the file, so this access itself raises
ReferenceError: allResults is not defined, and the individual/heuristic
fallback loop below it (lines 74-82) is unreachable — the ReferenceError
propagates out of evaluateSubtopic. The individualEval and fallbackEval
oracles are therefore never consulted. -/
def evalBatches (batchEval : BatchEval) (individualEval : IndividualEval)
    (fallbackEval : FallbackEval) :
    List (List SearchResult) → Except String (List EvaluatedContent)
  | [] => .ok []
  | b :: bs =>
    match batchEval b with
    | .ok cs =>
      (evalBatches batchEval individualEval fallbackEval bs).map
        (fun rest => cs ++ rest)
    | .error _ => .error "ReferenceError: allResults is not defined"

/-- Arithmetic-mean helper for the reduce-based averages of
evaluateSubtopic (0 when the list is empty). -/
def averageOf (xs : List ℚ) : ℚ :=
  if xs.length = 0 then 0 else xs.sum / xs.length

/-- EvaluatorAgent.evaluateSubtopic: cap the source list (10 sources in
normal mode, all of them when maxSources is the 999 sentinel of max mode),
process the capped list in batches of 4 through evalBatches, then derive the
aggregates. -/
def evaluateSubtopic (batchEval : BatchEval) (individualEval : IndividualEval)
    (fallbackEval : FallbackEval) (researchMode : ResearchMode)
    (searchResult : SearchResults) : Except String EvaluationResult :=
  let maxSources : Nat := match researchMode with | .max => 999 | .normal => 10
  let limitedResults :=
    if maxSources = 999 then searchResult.results
    else searchResult.results.take maxSources
  match evalBatches batchEval individualEval fallbackEval
      (chunksOf4 limitedResults) with
  | .error e => .error e
  | .ok evaluatedContent =>
    .ok { subtopic := searchResult.subtopic
          evaluatedContent := evaluatedContent
          totalSources := evaluatedContent.length
          averageRelevance :=
            averageOf (evaluatedContent.map EvaluatedContent.relevanceScore)
          averageCredibility :=
            averageOf (evaluatedContent.map EvaluatedContent.credibilityScore) }

/-- EvaluatorAgent.evaluateSearchResults: evaluate each subtopic, catching a
per-subtopic failure and recording it as a record with no evaluated content
and zero aggregates. -/
def evaluateSearchResults (batchEval : BatchEval)
    (individualEval : IndividualEval) (fallbackEval : FallbackEval)
    (researchMode : ResearchMode) (searchResults : List SearchResults) :
    List EvaluationResult :=
  searchResults.map (fun sr =>
    match evaluateSubtopic batchEval individualEval fallbackEval
        researchMode sr with
    | .ok r => r
    | .error _ =>
      { subtopic := sr.subtopic
        evaluatedContent := []
        totalSources := 0
        averageRelevance := 0
        averageCredibility := 0 })

/-- The per-source predicate of EvaluatorAgent.filterHighQualityContent:
content.relevanceScore >= minRelevance && content.credibilityScore >=
minCredibility. -/
def highQuality (minRelevance minCredibility : ℚ) (c : EvaluatedContent) : Bool :=
  decide (minRelevance ≤ c.relevanceScore) &&
    decide (minCredibility ≤ c.credibilityScore)

/-- EvaluatorAgent.filterHighQualityContent: map each record to a copy whose
evaluatedContent is filtered by the thresholds (every other field, including
totalSources and the averages computed before filtering, is kept via the
object spread), then drop the records whose filtered content is empty. -/
def filterHighQualityContent (evaluationResults : List EvaluationResult)
    (minRelevance : ℚ := 5) (minCredibility : ℚ := 4) : List EvaluationResult :=
  (evaluationResults.map (fun result =>
    { result with
      evaluatedContent :=
        result.evaluatedContent.filter (highQuality minRelevance minCredibility) }))
    |>.filter (fun result => !result.evaluatedContent.isEmpty)

/-! ## Synthesizer citation numbering (src/lib/agents/synthesizer.ts) -/

/-- The citation markers produced by SynthesizerAgent.formatResearchData, in
emission order, starting from subtopic index i: for the subtopic at index i
and its content at index contentIndex, the marker is
(index * 10) + contentIndex + 1. -/
def citationNumbersFrom (i : Nat) : List EvaluationResult → List Nat
  | [] => []
  | r :: rs =>
    (List.range r.evaluatedContent.length).map (fun j => i * 10 + j + 1)
      ++ citationNumbersFrom (i + 1) rs

/-- All citation markers of the synthesis prompt, across subtopics in order. -/
def citationNumbers (evaluationResults : List EvaluationResult) : List Nat :=
  citationNumbersFrom 0 evaluationResults

/-! ## Research session store (src/lib/research-session.ts) -/

/-- The status enum of the ResearchSession interface. -/
inductive Status
  | pending
  | planning
  | searching
  | evaluating
  | synthesizing
  | completed
  | failed
deriving DecidableEq, Repr

/-- The JS string literal a Status value is stored as. -/
def statusString : Status → String
  | .pending => "pending"
  | .planning => "planning"
  | .searching => "searching"
  | .evaluating => "evaluating"
  | .synthesizing => "synthesizing"
  | .completed => "completed"
  | .failed => "failed"

/-- The check ['completed', 'failed'].includes(session.status) used by
getActiveSessions, canResumeSession and resumeSession. -/
def terminalStatus (s : Status) : Bool :=
  s == .completed || s == .failed

/-- The ResearchSession record. Timestamps are epoch milliseconds (the
source stores ISO strings and compares them through Date.getTime). The
progressive result slots are omitted here: none of the verified operations
below reads or writes them. -/
structure Session where
  id : String
  question : String
  status : Status
  progress : Int
  currentPhase : String
  details : Option String := none
  createdAt : Int
  updatedAt : Int
  completedAt : Option Int := none
  errorMessage : Option String := none
deriving DecidableEq, Repr

/-- The session map, in insertion order (a JS Map iterates in insertion
order). -/
abbrev SessionStore : Type := List Session

/-- Map lookup by id: this.sessions.get(sessionId). -/
def findSession (sessions : SessionStore) (sessionId : String) : Option Session :=
  sessions.find? (fun s => s.id == sessionId)

/-- ResearchSessionStorage.cleanupOldSessions: with cutoffTime 24 hours
before now, delete every session with updatedAt before the cutoff and
status !== 'active'. The literal 'active' is not one of the seven values of
the status enum, so the second conjunct is true for every session and the
sweep deletes on age alone. -/
def cleanupOldSessions (now : Int) (sessions : SessionStore) : SessionStore :=
  let cutoffTime := now - 24 * 60 * 60 * 1000
  sessions.filter (fun s =>
    !(decide (s.updatedAt < cutoffTime) && !(statusString s.status == "active")))

/-- ResearchSessionStorage.createSession (with newId standing for the
generated session_timestamp_random token and now for new Date). -/
def createSession (now : Int) (newId : String) (question : String) : Session :=
  { id := newId
    question := question
    status := .pending
    progress := 0
    currentPhase := "Initializing"
    createdAt := now
    updatedAt := now }

/-- ResearchSessionStorage.canResumeSession: the first session (in insertion
order) with the identical question, a non-terminal status and createdAt
strictly inside the last 2 hours. -/
def canResumeSession (now : Int) (sessions : SessionStore)
    (question : String) : Option Session :=
  let cutoffTime := now - 2 * 60 * 60 * 1000
  sessions.find? (fun s =>
    s.question == question && !terminalStatus s.status
      && decide (cutoffTime < s.createdAt))

/-- The in-place mutation resumeSession performs on a found, non-terminal
session: status back to pending, progress reset to 0, phase label
"Resuming research", updatedAt refreshed, errorMessage cleared; the
progressive result slots are kept. -/
def resumedSession (now : Int) (s : Session) : Session :=
  { s with
    status := .pending
    progress := 0
    currentPhase := "Resuming research"
    updatedAt := now
    errorMessage := none }

/-- ResearchSessionStorage.resumeSession: null when the id is unknown or the
session is terminal; otherwise the reset session together with the updated
store. -/
def resumeSession (now : Int) (sessions : SessionStore) (sessionId : String) :
    Option Session × SessionStore :=
  match findSession sessions sessionId with
  | none => (none, sessions)
  | some s =>
    if terminalStatus s.status then (none, sessions)
    else
      let s2 := resumedSession now s
      (some s2, sessions.map (fun t => if t.id == sessionId then s2 else t))

/-! ## Submit endpoint (src/app/api/research/route.ts, POST) -/

/-- The JSON body of a submit request. -/
structure SubmitRequest where
  question : Option String
  sessionId : Option String := none
  resume : Bool := false
  researchMode : Option ResearchMode := none
deriving Repr

/-- Server environment: the configured OpenRouter API key, if any. -/
structure ServerEnv where
  openRouterApiKey : Option String
deriving Repr

/-- The JS truthiness test !question on the request body field. -/
def jsFalsyStr : Option String → Bool
  | none => true
  | some s => s == ""

/-- What the POST handler decides before (or instead of) streaming: the
early error responses, the resumable-session notice, or the session the
pipeline will run against. -/
inductive SubmitOutcome
  | badRequest (msg : String)
  | serverError (msg : String)
  | notFound (msg : String)
  | resumeNotice (sessionId : String) (existingProgress : Int)
      (existingPhase : String)
  | startRun (session : Session)
deriving Repr

/-- The HTTP status code of a SubmitOutcome (startRun and resumeNotice are
200 responses). -/
def httpStatus : SubmitOutcome → Nat
  | .badRequest _ => 400
  | .serverError _ => 500
  | .notFound _ => 404
  | .resumeNotice _ _ _ => 200
  | .startRun _ => 200

/-- The session-resolution prefix of the POST handler, in source order:
reject a falsy question (400), reject a missing server API key (500),
reject a question shorter than 10 characters (400); then resolve the
session: resume with id, plain id lookup, or — with no id supplied — the
resumable-session check followed by creation of a fresh session. The
returned store reflects any session creation or resume mutation; the error
and notice outcomes leave the store untouched. -/
def postSubmit (env : ServerEnv) (now : Int) (newId : String)
    (sessions : SessionStore) (req : SubmitRequest) :
    SubmitOutcome × SessionStore :=
  if jsFalsyStr req.question then
    (.badRequest "Question is required", sessions)
  else
    match env.openRouterApiKey with
    | none => (.serverError "API key not configured on server", sessions)
    | some _ =>
      let q := req.question.getD ""
      if q.length < 10 then
        (.badRequest "Question must be at least 10 characters long", sessions)
      else
        match req.sessionId with
        | some sid =>
          if req.resume then
            match resumeSession now sessions sid with
            | (some s, sessions2) => (.startRun s, sessions2)
            | (none, _) =>
              (.notFound "Session not found or cannot be resumed", sessions)
          else
            match findSession sessions sid with
            | some s => (.startRun s, sessions)
            | none => (.notFound "Session not found", sessions)
        | none =>
          match canResumeSession now sessions q with
          | some s => (.resumeNotice s.id s.progress s.currentPhase, sessions)
          | none =>
            let s := createSession now newId q
            (.startRun s, sessions ++ [s])

/-! ## Progress checkpoints of one pipeline run
(src/app/api/research/route.ts, executeResearchWithProgression) -/

/-- Progress values sent for the planning phase: 10 then 20 when the phase
runs, only the resuming checkpoint 20 when planningResult is cached. -/
def planEvents (cached : Bool) : List Nat :=
  if cached then [20] else [10, 20]

/-- Progress values sent for the search phase: 25, then h heartbeats at 25
from the 5-second interval, then 40; only 40 when searchResults is cached. -/
def searchEvents (cached : Bool) (h : Nat) : List Nat :=
  if cached then [40] else 25 :: List.replicate h 25 ++ [40]

/-- Progress values sent for the evaluation phase: 45, then h heartbeats at
45 while evaluateSearchResults runs, then h2 heartbeats at 60 while
filterHighQualityContent runs, then 70; only 70 when evaluationResults is
cached. -/
def evalEvents (cached : Bool) (h h2 : Nat) : List Nat :=
  if cached then [70]
  else 45 :: List.replicate h 45 ++ List.replicate h2 60 ++ [70]

/-- Progress values sent for the synthesis phase: 75 then h heartbeats at 75
when the phase runs; the resuming checkpoint is also 75. -/
def synthEvents (cached : Bool) (h : Nat) : List Nat :=
  if cached then [75] else 75 :: List.replicate h 75

/-- The full sequence of progress percentages one POST stream emits for a
run that reaches completion: the initial 0, the four phase blocks (each
parameterized by whether its result slot was cached and by how many
heartbeat ticks its intervals fired), then 90 at report finalization and
100 at completion. -/
def runProgressEvents (planCached searchCached evalCached synthCached : Bool)
    (h1 h2 h3 h4 : Nat) : List Nat :=
  0 :: (planEvents planCached ++ searchEvents searchCached h1
    ++ evalEvents evalCached h2 h3 ++ synthEvents synthCached h4 ++ [90, 100])

/-! ## Concrete instances used by the theorems below -/

/-- A canonical successful completion response. -/
def okResponse : OpenRouterResponse := ⟨[⟨"ok"⟩]⟩

/-- A request whose primary model is model-a. -/
def reqA : OpenRouterRequest := { model := "model-a", messages := [] }

/-- A completion oracle on which every model fails rate-limited, with the
model name recorded in the message (as the chat wrapper does for HTTP 429). -/
def chatAllRateLimited : ChatOracle :=
  fun r => .error ("Rate limit exceeded: model " ++ r.model)

/-- A completion oracle on which every model succeeds. -/
def chatAlwaysOk : ChatOracle := fun _ => .ok okResponse

/-- A completion oracle on which every model fails with the auth-classified
message the chat wrapper produces for HTTP 401. -/
def chatAuthError : ChatOracle := fun _ => .error "Invalid API key"

/-- A completion oracle that rate-limits model-a and succeeds elsewhere. -/
def chatRateLimitPrimary : ChatOracle :=
  fun r => if r.model == "model-a"
    then .error "Rate limit exceeded: free tier"
    else .ok okResponse

/-- A sample normalized search result. -/
def srcA : SearchResult :=
  ⟨"https://example.org/a", "Result A", "snippet about alpha", .tavily⟩

/-- A second sample normalized search result. -/
def srcB : SearchResult :=
  ⟨"https://example.org/b", "Result B", "snippet about beta", .tavily⟩

/-- Search backends that are all exhausted: the primary throws, the backup
returns zero results, the tertiary throws. -/
def backendsExhausted : SearchBackends :=
  ⟨fun _ => .error "tavily down", fun _ => .ok [], fun _ => .error "perplexity down"⟩

/-- Search backends whose primary always succeeds with one result. -/
def backendsUp : SearchBackends :=
  ⟨fun _ => .ok [srcA],
   fun _ => .error "backup down",
   fun _ => .error "perplexity down"⟩

/-- Search backends that all always throw. -/
def backendsDown : SearchBackends :=
  ⟨fun _ => .error "tavily down",
   fun _ => .error "backup down",
   fun _ => .error "perplexity down"⟩

/-- A search-results record with a single source, as input to evaluation. -/
def srOne : SearchResults :=
  ⟨"economic impacts", [srcA], "economic impacts 2025 OR 2024"⟩

/-- A batch evaluation oracle whose completion call always throws. -/
def failingBatchEval : BatchEval := fun _ => .error "OpenRouter API error: boom"

/-- An individual evaluation oracle that always succeeds with a fixed
record. -/
def stubIndividualEval : IndividualEval :=
  fun r => .ok ⟨r.url, r.title, r.snippet, [], [], 8, 7, some r.snippet⟩

/-- The heuristic fallback record createFallbackEvaluation would build for a
source (scores stubbed at the domain-table and keyword-overlap values). -/
def stubFallbackEval : FallbackEval :=
  fun r => ⟨r.url, r.title, r.snippet, [r.snippet], [], 5, 4, some r.snippet⟩

/-- A sample evaluated content record. -/
def contentA : EvaluatedContent := ⟨"u", "t", "s", [], [], 5, 5, none⟩

/-- Evaluation results as max mode can produce them: the first subtopic
carries 11 evaluated sources (the normal-mode cap is 10), the second one. -/
def elevenPlusOne : List EvaluationResult :=
  [⟨"s0", List.replicate 11 contentA, 11, 5, 5⟩, ⟨"s1", [contentA], 1, 5, 5⟩]

/-- Evaluation results respecting the 10-sources-per-subtopic cap. -/
def tenPlusOne : List EvaluationResult :=
  [⟨"s0", List.replicate 10 contentA, 10, 5, 5⟩, ⟨"s1", [contentA], 1, 5, 5⟩]

/-- A non-terminal (pending) session last updated 25 hours before the
sample sweep time below. -/
def stalePendingSession : Session :=
  { id := "session_1_aaaaaa"
    question := "What are the economic impacts of remote work?"
    status := .pending
    progress := 40
    currentPhase := "Sources gathered"
    createdAt := 1700000000000 - 25 * 60 * 60 * 1000
    updatedAt := 1700000000000 - 25 * 60 * 60 * 1000 }

/-- The sweep time used with stalePendingSession. -/
def sweepNow : Int := 1700000000000

/-- An in-flight session that already reached progress 70. -/
def midRunSession : Session :=
  { id := "session_2_bbbbbb"
    question := "What are the economic impacts of remote work?"
    status := .evaluating
    progress := 70
    currentPhase := "Sources evaluated"
    createdAt := 1700000000000
    updatedAt := 1700003000000 }

/-- A server environment with the OpenRouter key configured. -/
def envWithKey : ServerEnv := ⟨some "sk-or-key"⟩

/-- A server environment with no OpenRouter key configured. -/
def envNoKey : ServerEnv := ⟨none⟩

/-- A source passing the default post-filter thresholds. -/
def passingContent : EvaluatedContent := ⟨"u1", "t1", "s1", [], [], 8, 7, none⟩

/-- A source failing the default relevance threshold. -/
def lowRelevanceContent : EvaluatedContent := ⟨"u2", "t2", "s2", [], [], 2, 9, none⟩

/-- A source failing the default credibility threshold. -/
def lowCredibilityContent : EvaluatedContent := ⟨"u3", "t3", "s3", [], [], 9, 1, none⟩

/-- An evaluation record with one passing and one failing source. -/
def mixedFirst : EvaluationResult :=
  ⟨"s0", [passingContent, lowRelevanceContent], 2, 5, 8⟩

/-- An evaluation record whose only source fails the thresholds. -/
def mixedSecond : EvaluationResult := ⟨"s1", [lowCredibilityContent], 1, 9, 1⟩

/-- Two sample evaluation records for the post-filter. -/
def mixedEvaluation : List EvaluationResult := [mixedFirst, mixedSecond]

/-! ## Theorems -/

/-- C1: the claim promises that when the batched evaluation call for a batch
fails, evaluateSubtopic falls back to individual and then heuristic
evaluation so that every source in the capped list still yields a scored
record and no unhandled exception escapes the subtopic evaluation. The code
does the opposite: the catch block at evaluator.ts line 72 reads
allResults.length with no allResults in scope, so the very first statement of
the recovery path raises a ReferenceError, the fallback loop below it never
runs (for every behaviour of the individual and heuristic evaluators), the
exception escapes evaluateSubtopic, and the subtopic is recorded upstream by
evaluateSearchResults as an empty record with zero sources instead of one
scored record per source. -/
theorem c1_batch_failure_escapes_evaluateSubtopic :
    ∀ (individualEval : IndividualEval) (fallbackEval : FallbackEval),
      evaluateSubtopic failingBatchEval individualEval fallbackEval .normal srOne
        = .error "ReferenceError: allResults is not defined"
      ∧ evaluateSearchResults failingBatchEval individualEval fallbackEval
          .normal [srOne]
        = [{ subtopic := "economic impacts", evaluatedContent := [],
             totalSources := 0, averageRelevance := 0, averageCredibility := 0 }] := by
  intro individualEval fallbackEval
  constructor
  · simp [evaluateSubtopic, srOne, chunksOf4, evalBatches, failingBatchEval]
  · simp [evaluateSearchResults, evaluateSubtopic, srOne, chunksOf4,
      evalBatches, failingBatchEval]

/-- C2 counterexample: when every model in the list fails rate-limited, the
last iteration of chatWithFallback rethrows the last model's own rate-limit
error; the "All models failed" throw after the loop is unreachable. Here
both model-a and its single fallback model-b fail rate-limited, and the
result is the model-b rate-limit error, not "All models failed" as the
claim states. -/
theorem c2_exhaustion_returns_last_error_not_all_models_failed :
    chatWithFallback chatAllRateLimited reqA ["model-b"]
      = .error "Rate limit exceeded: model model-b"
    ∧ chatWithFallback chatAllRateLimited reqA ["model-b"]
      ≠ .error "All models failed" := by
  have h1 : chatWithFallback chatAllRateLimited reqA ["model-b"]
      = .error "Rate limit exceeded: model model-b" := rfl
  refine ⟨h1, ?_⟩
  rw [h1]
  intro h
  injection h with h2
  exact absurd h2 (by decide)

/-- Helper for C2: when every model in a non-empty list fails with a
rate-limit classified error, the fallback loop walks the whole list and
rethrows the error of the last model. -/
theorem chatAttempts_exhausted (chat : ChatOracle) (request : OpenRouterRequest) :
    ∀ (models : List String) (mlast elast : String),
      (∀ m ∈ models, ∃ e, chat { request with model := m } = .error e ∧
          jsIncludes e "Rate limit exceeded" = true) →
      models.getLast? = some mlast →
      chat { request with model := mlast } = .error elast →
      chatAttempts chat request models = .error elast := by
  intro models
  induction models with
  | nil => intro mlast elast _ hlast _; simp at hlast
  | cons m rest ih =>
    intro mlast elast hall hlast herr
    obtain ⟨e, he, hrl⟩ := hall m (List.mem_cons_self m rest)
    cases rest with
    | nil =>
      have hm : mlast = m := by simpa using hlast.symm
      subst hm
      rw [he] at herr
      have he2 : e = elast := by
        simpa using herr
      subst he2
      simp [chatAttempts, he]
    | cons m2 rest2 =>
      have hlast2 : (m2 :: rest2).getLast? = some mlast := by
        simpa using hlast
      have step : chatAttempts chat request (m :: m2 :: rest2)
          = chatAttempts chat request (m2 :: rest2) := by
        simp [chatAttempts, he, hrl]
      rw [step]
      exact ih mlast elast
        (fun x hx => hall x (List.mem_cons_of_mem _ hx)) hlast2 herr

/-- C2 (amended): chatWithFallback tries the primary model first; on a
rate-limit classified failure it retries with the next model in order when
one remains; on any other failure class it rethrows that error immediately
without trying further models; and when every model in the list fails
rate-limited, it fails by rethrowing the rate-limit error of the last model
in the list (the "All models failed" message is unreachable). -/
theorem c2_chatWithFallback_policy (chat : ChatOracle)
    (request : OpenRouterRequest) (fallbackModels : List String) :
    (∀ r, chat { request with model := request.model } = .ok r →
        chatWithFallback chat request fallbackModels = .ok r)
    ∧ (∀ e, chat { request with model := request.model } = .error e →
        jsIncludes e "Rate limit exceeded" = false →
        chatWithFallback chat request fallbackModels = .error e)
    ∧ (∀ e, chat { request with model := request.model } = .error e →
        jsIncludes e "Rate limit exceeded" = true → fallbackModels ≠ [] →
        chatWithFallback chat request fallbackModels
          = chatAttempts chat request fallbackModels)
    ∧ (∀ mlast elast,
        (∀ m ∈ request.model :: fallbackModels,
          ∃ e, chat { request with model := m } = .error e ∧
            jsIncludes e "Rate limit exceeded" = true) →
        (request.model :: fallbackModels).getLast? = some mlast →
        chat { request with model := mlast } = .error elast →
        chatWithFallback chat request fallbackModels = .error elast) := by
  refine ⟨?_, ?_, ?_, ?_⟩
  · intro r h
    simp [chatWithFallback, chatAttempts, h]
  · intro e h hrl
    simp [chatWithFallback, chatAttempts, h, hrl]
  · intro e h hrl hne
    cases fallbackModels with
    | nil => exact absurd rfl hne
    | cons a l => simp [chatWithFallback, chatAttempts, h, hrl]
  · intro mlast elast hall hlast herr
    exact chatAttempts_exhausted chat request (request.model :: fallbackModels)
      mlast elast hall hlast herr

/-- C2 witness: the amended policy applied at concrete oracles — a primary
success is returned as-is; an auth-classified failure aborts immediately; a
rate-limited primary with one fallback hands over to the fallback list; and
full rate-limited exhaustion over [model-a, model-b] yields model-b's error. -/
theorem c2_chatWithFallback_policy_witness :
    chatWithFallback chatAlwaysOk reqA ["model-b"] = .ok okResponse
    ∧ chatWithFallback chatAuthError reqA ["model-b"] = .error "Invalid API key"
    ∧ chatWithFallback chatRateLimitPrimary reqA ["model-b"]
        = chatAttempts chatRateLimitPrimary reqA ["model-b"]
    ∧ chatWithFallback chatAllRateLimited reqA ["model-b", "model-c"]
        = .error "Rate limit exceeded: model model-c" := by
  refine ⟨?_, ?_, ?_, ?_⟩
  · exact (c2_chatWithFallback_policy chatAlwaysOk reqA ["model-b"]).1
      okResponse rfl
  · exact (c2_chatWithFallback_policy chatAuthError reqA ["model-b"]).2.1
      "Invalid API key" rfl (by decide)
  · exact (c2_chatWithFallback_policy chatRateLimitPrimary reqA
      ["model-b"]).2.2.1 "Rate limit exceeded: free tier" rfl (by decide)
      (by decide)
  · exact (c2_chatWithFallback_policy chatAllRateLimited reqA
      ["model-b", "model-c"]).2.2.2 "model-c"
      "Rate limit exceeded: model model-c"
      (by intro m hm
          refine ⟨"Rate limit exceeded: model " ++ m, rfl, ?_⟩
          fin_cases hm <;> decide)
      (by decide) rfl

/-- Helper: a try block yields no usable results exactly when its backend
threw or returned zero results. -/
theorem attemptBackend_eq_none (b : SearchBackend) (q : String) :
    attemptBackend b q = none ↔ backendExhausted b q := by
  unfold attemptBackend backendExhausted
  cases h : b q with
  | ok rs =>
    cases rs with
    | nil => simp
    | cons a l => simp
  | error e => simp

/-- Helper: a try block yields usable results only when its backend
returned exactly that non-empty list. -/
theorem attemptBackend_eq_some (b : SearchBackend) (q : String)
    (rs : List SearchResult) :
    attemptBackend b q = some rs → b q = .ok rs ∧ rs ≠ [] := by
  intro hsome
  unfold attemptBackend at hsome
  cases h : b q with
  | ok rs2 =>
    rw [h] at hsome
    cases rs2 with
    | nil => simp at hsome
    | cons a l =>
      simp at hsome
      subst hsome
      exact ⟨rfl, by simp⟩
  | error e => rw [h] at hsome; simp at hsome

/-- Helper: everything a successful searchSubtopic returns came from one of
the three backends: the subtopic and query are echoed back, and the result
list is the top-5 truncation of a non-empty list some backend returned. -/
theorem searchSubtopic_ok_shape (B : SearchBackends) (currentYear : Int)
    (subtopic : String) (originalQuery : Option String) (out : SearchResults) :
    searchSubtopic B currentYear subtopic originalQuery = .ok out →
    out.subtopic = subtopic
    ∧ out.searchQuery = generateSearchQuery currentYear subtopic originalQuery
    ∧ ∃ b, (b = B.tavily ∨ b = B.tavilyBackup ∨ b = B.perplexity) ∧
        ∃ rs, b (generateSearchQuery currentYear subtopic originalQuery) = .ok rs
          ∧ rs ≠ [] ∧ out.results = rs.take 5 := by
  intro hout
  simp only [searchSubtopic] at hout
  cases h1 : attemptBackend B.tavily
      (generateSearchQuery currentYear subtopic originalQuery) with
  | some rs =>
    rw [h1] at hout
    simp at hout
    obtain ⟨hok, hne⟩ := attemptBackend_eq_some _ _ _ h1
    rw [← hout]
    exact ⟨rfl, rfl, B.tavily, Or.inl rfl, rs, hok, hne, rfl⟩
  | none =>
    rw [h1] at hout
    cases h2 : attemptBackend B.tavilyBackup
        (generateSearchQuery currentYear subtopic originalQuery) with
    | some rs =>
      rw [h2] at hout
      simp at hout
      obtain ⟨hok, hne⟩ := attemptBackend_eq_some _ _ _ h2
      rw [← hout]
      exact ⟨rfl, rfl, B.tavilyBackup, Or.inr (Or.inl rfl), rs, hok, hne, rfl⟩
    | none =>
      rw [h2] at hout
      cases h3 : attemptBackend B.perplexity
          (generateSearchQuery currentYear subtopic originalQuery) with
      | some rs =>
        rw [h3] at hout
        simp at hout
        obtain ⟨hok, hne⟩ := attemptBackend_eq_some _ _ _ h3
        rw [← hout]
        exact ⟨rfl, rfl, B.perplexity, Or.inr (Or.inr rfl), rs, hok, hne, rfl⟩
      | none => rw [h3] at hout; simp at hout

/-- C3: searchSubtopic tries the three backends in priority order; when
every backend throws or returns zero results, it throws the loud
provider-exhaustion error instead of returning anything; any successful
return consists of results one of the backends produced (truncated to the
top 5) — never synthetic or placeholder records fabricated by
searchSubtopic itself; and the primary Tavily backend wins when it has
usable results. -/
theorem c3_searchSubtopic_never_fabricates (B : SearchBackends)
    (currentYear : Int) (subtopic : String) (originalQuery : Option String)
    (q : String)
    (hq : q = generateSearchQuery currentYear subtopic originalQuery) :
    (backendExhausted B.tavily q → backendExhausted B.tavilyBackup q →
      backendExhausted B.perplexity q →
      searchSubtopic B currentYear subtopic originalQuery
        = .error ("All search APIs failed for query: " ++ q
            ++ ". Real search is needed - fake search disabled."))
    ∧ (∀ out, searchSubtopic B currentYear subtopic originalQuery = .ok out →
        out.subtopic = subtopic ∧ out.searchQuery = q ∧
        ∃ b, (b = B.tavily ∨ b = B.tavilyBackup ∨ b = B.perplexity) ∧
          ∃ rs, b q = .ok rs ∧ rs ≠ [] ∧ out.results = rs.take 5)
    ∧ (∀ rs, B.tavily q = .ok rs → rs ≠ [] →
        searchSubtopic B currentYear subtopic originalQuery
          = .ok ⟨subtopic, rs.take 5, q⟩) := by
  subst hq
  refine ⟨?_, ?_, ?_⟩
  · intro h1 h2 h3
    rw [← attemptBackend_eq_none] at h1 h2 h3
    simp [searchSubtopic, h1, h2, h3]
  · intro out hout
    exact searchSubtopic_ok_shape B currentYear subtopic originalQuery out hout
  · intro rs hok hne
    have hsome : attemptBackend B.tavily
        (generateSearchQuery currentYear subtopic originalQuery) = some rs := by
      unfold attemptBackend
      rw [hok]
      cases rs with
      | nil => exact absurd rfl hne
      | cons a l => simp
    simp [searchSubtopic, hsome]

/-- C3 witness: with all three backends exhausted (primary throws, backup
returns zero results, tertiary throws) the loud error is raised; with a
primary backend that has a usable result for the query, that result is
returned as-is. -/
theorem c3_searchSubtopic_never_fabricates_witness :
    searchSubtopic backendsExhausted 2025 "alpha topic" none
      = .error ("All search APIs failed for query: "
          ++ generateSearchQuery 2025 "alpha topic" none
          ++ ". Real search is needed - fake search disabled.")
    ∧ searchSubtopic backendsUp 2025 "alpha topic" (some "orig")
      = .ok ⟨"alpha topic", [srcA],
             generateSearchQuery 2025 "alpha topic" (some "orig")⟩ := by
  constructor
  · exact (c3_searchSubtopic_never_fabricates backendsExhausted 2025
      "alpha topic" none _ rfl).1
      (Or.inl ⟨"tavily down", rfl⟩) (Or.inr rfl)
      (Or.inl ⟨"perplexity down", rfl⟩)
  · exact (c3_searchSubtopic_never_fabricates backendsUp 2025
      "alpha topic" (some "orig") _ rfl).2.2 [srcA] rfl (by simp)

/-- Helper: the entry searchAllSubtopics records for one subtopic always
carries that subtopic. -/
theorem searchOneSubtopic_subtopic (B : SearchBackends) (currentYear : Int)
    (originalQuery subtopic : String) :
    (searchOneSubtopic B currentYear originalQuery subtopic).subtopic
      = subtopic := by
  unfold searchOneSubtopic
  cases h : searchSubtopic B currentYear subtopic (some originalQuery) with
  | ok out =>
    simpa using (searchSubtopic_ok_shape B currentYear subtopic
      (some originalQuery) out h).1
  | error e => simp

/-- C4: searchAllSubtopics returns exactly one entry per subtopic; the entry
at position i carries the i-th subtopic and is a function of that subtopic
alone (so a failure elsewhere cannot alter it); and when searchSubtopic
throws for that subtopic, its entry is recorded with an empty result list. -/
theorem c4_searchAllSubtopics_isolates_failures (B : SearchBackends)
    (currentYear : Int) (subtopics : List String) (originalQuery : String) :
    (searchAllSubtopics B currentYear subtopics originalQuery).length
      = subtopics.length
    ∧ ∀ (i : Nat) (h1 : i < subtopics.length)
        (h2 : i < (searchAllSubtopics B currentYear subtopics originalQuery).length),
        (searchAllSubtopics B currentYear subtopics originalQuery)[i]
          = searchOneSubtopic B currentYear originalQuery subtopics[i]
        ∧ ((searchAllSubtopics B currentYear subtopics originalQuery)[i]).subtopic
          = subtopics[i]
        ∧ ∀ e, searchSubtopic B currentYear subtopics[i]
              (some originalQuery) = .error e →
            (searchAllSubtopics B currentYear subtopics originalQuery)[i]
              = ⟨subtopics[i], [],
                 generateSearchQuery currentYear subtopics[i]
                   (some originalQuery)⟩ := by
  refine ⟨by simp [searchAllSubtopics], ?_⟩
  intro i h1 h2
  have hget : (searchAllSubtopics B currentYear subtopics originalQuery)[i]
      = searchOneSubtopic B currentYear originalQuery subtopics[i] := by
    simp [searchAllSubtopics]
  refine ⟨hget, ?_, ?_⟩
  · rw [hget]
    exact searchOneSubtopic_subtopic B currentYear originalQuery _
  · intro e he
    rw [hget]
    simp [searchOneSubtopic, he]

/-- C4 witness: over the two subtopics alpha topic and beta topic, with all
backends down (so searchSubtopic throws for both), the search phase still
returns two entries, and the second is recorded with an empty result list. -/
theorem c4_searchAllSubtopics_isolates_failures_witness :
    (searchAllSubtopics backendsDown 2025 ["alpha topic", "beta topic"]
      "orig").length = 2
    ∧ (searchAllSubtopics backendsDown 2025 ["alpha topic", "beta topic"]
        "orig").get ⟨1, by simp [searchAllSubtopics]⟩
      = ⟨"beta topic", [],
         generateSearchQuery 2025 "beta topic" (some "orig")⟩ := by
  constructor
  · exact (c4_searchAllSubtopics_isolates_failures backendsDown 2025
      ["alpha topic", "beta topic"] "orig").1
  · exact ((c4_searchAllSubtopics_isolates_failures backendsDown 2025
      ["alpha topic", "beta topic"] "orig").2 1 (by simp)
      (by simp [searchAllSubtopics])).2.2 _ rfl

/-- C5 counterexample: the stride-10 citation numbering collides as soon as
a subtopic contributes more than 10 sources, which max mode permits (its
cap is the 999 sentinel). With 11 sources under the first subtopic, its
11th marker and the second subtopic's first marker are both 11, so the
marker list is not pairwise distinct, contrary to the claim. -/
theorem c5_citation_markers_collide_beyond_ten_sources :
    citationNumbers elevenPlusOne = [1, 2, 3, 4, 5, 6, 7, 8, 9, 10, 11, 11]
    ∧ ¬ (citationNumbers elevenPlusOne).Nodup := by
  constructor
  · rfl
  · decide

/-- Helper: every marker emitted from subtopic index i onwards is at least
i * 10 + 1. -/
theorem citationNumbersFrom_lb (rs : List EvaluationResult) :
    ∀ (i x : Nat), x ∈ citationNumbersFrom i rs → i * 10 + 1 ≤ x := by
  induction rs with
  | nil => intro i x hx; simp [citationNumbersFrom] at hx
  | cons r rest ih =>
    intro i x hx
    simp only [citationNumbersFrom, List.mem_append, List.mem_map,
      List.mem_range] at hx
    rcases hx with ⟨j, hj, rfl⟩ | hx
    · omega
    · have := ih (i + 1) x hx
      omega

/-- Helper: when every subtopic contributes at most 10 sources, the markers
emitted from any starting index are pairwise distinct. -/
theorem citationNumbersFrom_nodup (rs : List EvaluationResult)
    (hlen : ∀ r ∈ rs, r.evaluatedContent.length ≤ 10) :
    ∀ i, (citationNumbersFrom i rs).Nodup := by
  induction rs with
  | nil => intro i; simp [citationNumbersFrom]
  | cons r rest ih =>
    intro i
    simp only [citationNumbersFrom]
    refine List.Nodup.append ?_ ?_ ?_
    · refine List.Nodup.map ?_ (List.nodup_range _)
      intro a b hab
      simp at hab
      omega
    · exact ih (fun x hx => hlen x (List.mem_cons_of_mem _ hx)) (i + 1)
    · intro x hx hx2
      simp only [List.mem_map, List.mem_range] at hx
      obtain ⟨j, hj, rfl⟩ := hx
      have h10 : r.evaluatedContent.length ≤ 10 :=
        hlen r (List.mem_cons_self _ _)
      have := citationNumbersFrom_lb rest (i + 1) _ hx2
      omega

/-- C5 (amended): the citation markers of the synthesis prompt, computed as
subtopic index times the fixed stride 10 plus content index plus one, are
pairwise distinct across all (subtopic, source) pairs whenever every
subtopic contributes at most 10 sources — the normal-mode cap; under max
mode a subtopic may exceed 10 sources and markers then collide. -/
theorem c5_citation_markers_unique_within_cap (rs : List EvaluationResult)
    (hlen : ∀ r ∈ rs, r.evaluatedContent.length ≤ 10) :
    (citationNumbers rs).Nodup :=
  citationNumbersFrom_nodup rs hlen 0

/-- C5 witness: at the cap — 10 sources under the first subtopic, one under
the second — all markers are distinct. -/
theorem c5_citation_markers_unique_within_cap_witness :
    (∀ r ∈ tenPlusOne, r.evaluatedContent.length ≤ 10)
    ∧ (citationNumbers tenPlusOne).Nodup :=
  ⟨by decide, c5_citation_markers_unique_within_cap tenPlusOne (by decide)⟩

/-- C6: the claim says the background sweep deletes a session only when it
is both older than the 24-hour retention window and in a terminal status.
The code compares status against the literal active, which is not one of
the seven status values, so the status guard is vacuous and the sweep
deletes on age alone: a 25-hour-old pending (non-terminal) session is
removed. -/
theorem c6_cleanup_deletes_old_nonterminal_session :
    cleanupOldSessions sweepNow [stalePendingSession] = []
    ∧ stalePendingSession.status = .pending
    ∧ terminalStatus stalePendingSession.status = false
    ∧ statusString stalePendingSession.status ≠ "active" := by
  refine ⟨rfl, rfl, rfl, by decide⟩

/-- C9: filterHighQualityContent is pure with respect to the per-record
aggregates: every returned record arises from an input record with the same
subtopic, totalSources and pre-filter averages, only its evaluatedContent
replaced by its threshold-filtered version, and is non-empty; conversely
every input record whose filtered content is non-empty appears in the
output in exactly that shape. -/
theorem c9_filter_keeps_aggregates (rs : List EvaluationResult)
    (minRelevance minCredibility : ℚ) :
    (∀ r2 ∈ filterHighQualityContent rs minRelevance minCredibility,
      ∃ r ∈ rs, r2.subtopic = r.subtopic ∧ r2.totalSources = r.totalSources
        ∧ r2.averageRelevance = r.averageRelevance
        ∧ r2.averageCredibility = r.averageCredibility
        ∧ r2.evaluatedContent
            = r.evaluatedContent.filter (highQuality minRelevance minCredibility)
        ∧ r2.evaluatedContent ≠ [])
    ∧ (∀ r ∈ rs,
        r.evaluatedContent.filter (highQuality minRelevance minCredibility) ≠ [] →
        { r with evaluatedContent :=
            r.evaluatedContent.filter (highQuality minRelevance minCredibility) }
          ∈ filterHighQualityContent rs minRelevance minCredibility) := by
  constructor
  · intro r2 h2
    unfold filterHighQualityContent at h2
    rw [List.mem_filter] at h2
    obtain ⟨hmem, hp⟩ := h2
    rw [List.mem_map] at hmem
    obtain ⟨r, hr, hfr⟩ := hmem
    subst hfr
    refine ⟨r, hr, rfl, rfl, rfl, rfl, rfl, ?_⟩
    simpa using hp
  · intro r hr hne
    unfold filterHighQualityContent
    rw [List.mem_filter]
    refine ⟨List.mem_map.mpr ⟨r, hr, rfl⟩, ?_⟩
    simpa [List.isEmpty_eq_false] using hne

/-- C9 witness: on the sample records, the first record survives with its
pre-filter aggregates (totalSources 2, averages 5 and 8) and only its
passing source kept. -/
theorem c9_filter_keeps_aggregates_witness :
    { mixedFirst with evaluatedContent :=
        mixedFirst.evaluatedContent.filter (highQuality 5 4) }
      ∈ filterHighQualityContent mixedEvaluation 5 4 :=
  (c9_filter_keeps_aggregates mixedEvaluation 5 4).2 mixedFirst
    (by simp [mixedEvaluation]) (by decide)

/-- C10 counterexample: a present but 5-character question on a server with
no configured API key is answered with the 500 response from the API-key
check, which sits between the two question checks — not with HTTP 400 as
the claim states (no session is created or looked up either way). -/
theorem c10_short_question_without_key_yields_500 :
    postSubmit envNoKey 1700004000000 "nid" [] { question := some "short" }
      = (.serverError "API key not configured on server", [])
    ∧ httpStatus (postSubmit envNoKey 1700004000000 "nid" []
        { question := some "short" }).1 = 500
    ∧ httpStatus (postSubmit envNoKey 1700004000000 "nid" []
        { question := some "short" }).1 ≠ 400 := by
  refine ⟨rfl, rfl, by decide⟩

/-- C10 (amended): a missing (or empty) question is rejected with the 400
"Question is required" response before any session is created or looked up
(the store is returned untouched and the outcome does not depend on it);
a present question shorter than 10 characters is likewise rejected before
any session work — with the 400 length response when the server API key is
configured, and with the 500 "API key not configured on server" response
when it is not, since the API-key check sits between the two question
checks. -/
theorem c10_validation_precedes_session_work (env : ServerEnv) (now : Int)
    (newId : String) (sessions : SessionStore) (req : SubmitRequest) :
    (jsFalsyStr req.question = true →
      postSubmit env now newId sessions req
        = (.badRequest "Question is required", sessions))
    ∧ (∀ q, req.question = some q → q ≠ "" → q.length < 10 →
        (∀ k, env.openRouterApiKey = some k →
          postSubmit env now newId sessions req
            = (.badRequest "Question must be at least 10 characters long",
               sessions))
        ∧ (env.openRouterApiKey = none →
          postSubmit env now newId sessions req
            = (.serverError "API key not configured on server", sessions))) := by
  constructor
  · intro hfalsy
    simp [postSubmit, hfalsy]
  · intro q hq hne hshort
    have hfalsy : jsFalsyStr (some q) = false := by
      simp [jsFalsyStr, hne]
    constructor
    · intro k hk
      simp [postSubmit, hq, hfalsy, hk, hshort]
    · intro hk
      simp [postSubmit, hq, hfalsy, hk]

/-- C10 witness: the three rejection shapes at concrete requests — missing
question, short question with a configured key, short question without a
key — each leaving the (empty) store untouched. -/
theorem c10_validation_precedes_session_work_witness :
    postSubmit envWithKey 0 "nid" [] { question := none }
      = (.badRequest "Question is required", [])
    ∧ postSubmit envWithKey 0 "nid" [] { question := some "short" }
      = (.badRequest "Question must be at least 10 characters long", [])
    ∧ postSubmit envNoKey 0 "nid" [] { question := some "tiny" }
      = (.serverError "API key not configured on server", []) :=
  ⟨(c10_validation_precedes_session_work envWithKey 0 "nid" []
      { question := none }).1 rfl,
   ((c10_validation_precedes_session_work envWithKey 0 "nid" []
      { question := some "short" }).2 "short" rfl (by decide) (by decide)).1
      "sk-or-key" rfl,
   ((c10_validation_precedes_session_work envNoKey 0 "nid" []
      { question := some "tiny" }).2 "tiny" rfl (by decide) (by decide)).2 rfl⟩

/-- C7 counterexample: resumeSession on a non-terminal session explicitly
resets its stored progress to 0 (the source comments this "Reset progress
but keep existing data"), so the stored progress field is not monotonically
non-decreasing within the session's lifetime: the sample session is stored
with progress 70 and, after resume, with progress 0. -/
theorem c7_resume_resets_stored_progress :
    midRunSession.progress = 70
    ∧ (resumeSession 1700004000000 [midRunSession] "session_2_bbbbbb").1
        = some (resumedSession 1700004000000 midRunSession)
    ∧ (resumedSession 1700004000000 midRunSession).progress = 0
    ∧ ¬ (midRunSession.progress
          ≤ (resumedSession 1700004000000 midRunSession).progress) := by
  refine ⟨rfl, rfl, rfl, by decide⟩

/-- Helper: a constant list is sorted under ≤. -/
theorem sorted_le_replicate (n a : Nat) :
    List.Sorted (· ≤ ·) (List.replicate n a) := by
  induction n with
  | zero => simp
  | succ n ih =>
    rw [List.replicate_succ]
    exact List.Pairwise.cons (fun b hb => (List.eq_of_mem_replicate hb).ge) ih

/-- Helper: two sorted lists concatenate to a sorted list when some value c
bounds the first from above and the second from below. -/
theorem sorted_le_append {l₁ l₂ : List Nat} (c : Nat)
    (h₁ : List.Sorted (· ≤ ·) l₁) (h₂ : List.Sorted (· ≤ ·) l₂)
    (hub : ∀ x ∈ l₁, x ≤ c) (hlb : ∀ y ∈ l₂, c ≤ y) :
    List.Sorted (· ≤ ·) (l₁ ++ l₂) :=
  List.pairwise_append.mpr
    ⟨h₁, h₂, fun x hx y hy => le_trans (hub x hx) (hlb y hy)⟩

/-- Helper: the planning block is sorted. -/
theorem planEvents_sorted (c : Bool) : List.Sorted (· ≤ ·) (planEvents c) := by
  cases c <;> simp [planEvents]

/-- Helper: planning-block values lie in [10, 20]. -/
theorem planEvents_bounds (c : Bool) :
    ∀ x ∈ planEvents c, 10 ≤ x ∧ x ≤ 20 := by
  cases c <;> intro x hx <;> simp [planEvents] at hx <;> omega

/-- Helper: the search block is sorted. -/
theorem searchEvents_sorted (c : Bool) (h : Nat) :
    List.Sorted (· ≤ ·) (searchEvents c h) := by
  cases c with
  | true => simp [searchEvents]
  | false =>
    simp only [searchEvents]
    refine List.Pairwise.cons ?_ ?_
    · intro b hb
      simp [List.mem_replicate] at hb
      omega
    · refine sorted_le_append 25 (sorted_le_replicate h 25) (by simp) ?_ ?_
      · intro x hx
        simp [List.mem_replicate] at hx
        omega
      · intro y hy
        simp at hy
        omega

/-- Helper: search-block values lie in [25, 40]. -/
theorem searchEvents_bounds (c : Bool) (h : Nat) :
    ∀ x ∈ searchEvents c h, 25 ≤ x ∧ x ≤ 40 := by
  cases c <;> intro x hx <;>
    simp [searchEvents, List.mem_replicate] at hx <;> omega

/-- Helper: the evaluation block is sorted. -/
theorem evalEvents_sorted (c : Bool) (h h2 : Nat) :
    List.Sorted (· ≤ ·) (evalEvents c h h2) := by
  cases c with
  | true => simp [evalEvents]
  | false =>
    simp only [evalEvents]
    refine List.Pairwise.cons ?_ ?_
    · intro b hb
      simp [List.mem_replicate] at hb
      omega
    · refine sorted_le_append 70
        (sorted_le_append 45 (sorted_le_replicate h 45)
          (sorted_le_replicate h2 60) ?_ ?_)
        (by simp) ?_ ?_
      · intro x hx
        simp [List.mem_replicate] at hx
        omega
      · intro y hy
        simp [List.mem_replicate] at hy
        omega
      · intro x hx
        simp [List.mem_replicate] at hx
        omega
      · intro y hy
        simp at hy
        omega

/-- Helper: evaluation-block values lie in [45, 70]. -/
theorem evalEvents_bounds (c : Bool) (h h2 : Nat) :
    ∀ x ∈ evalEvents c h h2, 45 ≤ x ∧ x ≤ 70 := by
  cases c <;> intro x hx <;>
    simp [evalEvents, List.mem_replicate] at hx <;> omega

/-- Helper: the synthesis block is sorted. -/
theorem synthEvents_sorted (c : Bool) (h : Nat) :
    List.Sorted (· ≤ ·) (synthEvents c h) := by
  cases c with
  | true => simp [synthEvents]
  | false =>
    simp only [synthEvents]
    exact List.Pairwise.cons
      (fun b hb => (List.eq_of_mem_replicate hb).ge)
      (sorted_le_replicate h 75)

/-- Helper: synthesis-block values all equal 75. -/
theorem synthEvents_bounds (c : Bool) (h : Nat) :
    ∀ x ∈ synthEvents c h, 75 ≤ x ∧ x ≤ 75 := by
  cases c <;> intro x hx <;>
    simp [synthEvents, List.mem_replicate] at hx <;> omega

/-- C7 (amended): within one pipeline run the emitted progress percentages
form a non-decreasing sequence, for every combination of cached phase slots
and heartbeat counts (sendProgress persists each emitted value, so the
stored progress is non-decreasing within a run as well); across the session
lifetime, however, resumeSession resets the stored progress of any session
it resumes to 0, so monotonicity holds per run, not across resumes. -/
theorem c7_progress_monotone_per_run_reset_on_resume :
    (∀ (planCached searchCached evalCached synthCached : Bool)
        (h1 h2 h3 h4 : Nat),
      List.Sorted (· ≤ ·)
        (runProgressEvents planCached searchCached evalCached synthCached
          h1 h2 h3 h4))
    ∧ (∀ (now : Int) (sessions : SessionStore) (sessionId : String)
        (s : Session),
        (resumeSession now sessions sessionId).1 = some s →
        s.progress = 0) := by
  constructor
  · intro pc sc ec yc h1 h2 h3 h4
    simp only [runProgressEvents]
    refine List.Pairwise.cons (fun b _ => Nat.zero_le b) ?_
    have hAB : List.Sorted (· ≤ ·) (planEvents pc ++ searchEvents sc h1) :=
      sorted_le_append 25 (planEvents_sorted pc) (searchEvents_sorted sc h1)
        (fun x hx => by have := planEvents_bounds pc x hx; omega)
        (fun y hy => (searchEvents_bounds sc h1 y hy).1)
    have hABub : ∀ x ∈ planEvents pc ++ searchEvents sc h1, x ≤ 40 := by
      intro x hx
      rcases List.mem_append.mp hx with hx | hx
      · have := planEvents_bounds pc x hx; omega
      · exact (searchEvents_bounds sc h1 x hx).2
    have hABC : List.Sorted (· ≤ ·)
        (planEvents pc ++ searchEvents sc h1 ++ evalEvents ec h2 h3) :=
      sorted_le_append 45 hAB (evalEvents_sorted ec h2 h3)
        (fun x hx => by have := hABub x hx; omega)
        (fun y hy => (evalEvents_bounds ec h2 h3 y hy).1)
    have hABCub : ∀ x ∈ planEvents pc ++ searchEvents sc h1
        ++ evalEvents ec h2 h3, x ≤ 70 := by
      intro x hx
      rcases List.mem_append.mp hx with hx | hx
      · have := hABub x hx; omega
      · exact (evalEvents_bounds ec h2 h3 x hx).2
    have hABCD : List.Sorted (· ≤ ·)
        (planEvents pc ++ searchEvents sc h1 ++ evalEvents ec h2 h3
          ++ synthEvents yc h4) :=
      sorted_le_append 75 hABC (synthEvents_sorted yc h4)
        (fun x hx => by have := hABCub x hx; omega)
        (fun y hy => (synthEvents_bounds yc h4 y hy).1)
    have hABCDub : ∀ x ∈ planEvents pc ++ searchEvents sc h1
        ++ evalEvents ec h2 h3 ++ synthEvents yc h4, x ≤ 75 := by
      intro x hx
      rcases List.mem_append.mp hx with hx | hx
      · have := hABCub x hx; omega
      · exact (synthEvents_bounds yc h4 x hx).2
    refine sorted_le_append 90 hABCD ?_ (fun x hx => by
        have := hABCDub x hx; omega) (fun y hy => by simp at hy; omega)
    exact List.Pairwise.cons (by simp) (List.sorted_singleton 100)
  · intro now sessions sessionId s h
    unfold resumeSession at h
    cases hf : findSession sessions sessionId with
    | none => rw [hf] at h; simp at h
    | some t =>
      rw [hf] at h
      cases ht : terminalStatus t.status with
      | true => simp [ht] at h
      | false =>
        simp [ht] at h
        rw [← h]
        rfl

/-- C7 witness: the amended statement at a concrete run — planning fresh,
search cached, evaluation fresh, synthesis cached, with heartbeat counts
2, 0, 3, 1 — and at the concrete resumed session, whose stored progress 70
becomes 0. -/
theorem c7_progress_monotone_per_run_reset_on_resume_witness :
    List.Sorted (· ≤ ·) (runProgressEvents false true false true 2 0 3 1)
    ∧ (resumedSession 1700004000000 midRunSession).progress = 0 :=
  ⟨c7_progress_monotone_per_run_reset_on_resume.1 false true false true 2 0 3 1,
   c7_progress_monotone_per_run_reset_on_resume.2 1700004000000
     [midRunSession] "session_2_bbbbbb"
     (resumedSession 1700004000000 midRunSession) rfl⟩

/-- C8: with no session id supplied, the resumable-session lookup succeeds
exactly when the store holds a session with the identical question, a
non-terminal status and createdAt inside the last 2 hours; whatever it
returns satisfies those three conditions and lives in the store; and when
it succeeds for a valid submit request, the endpoint answers with the
resumable-session notice carrying that session's id, progress and phase,
leaving the store untouched (no new session is created and no phase work
begins). -/
theorem c8_resumable_lookup_and_notice (now : Int) (sessions : SessionStore)
    (q : String) :
    ((canResumeSession now sessions q).isSome ↔
      ∃ s ∈ sessions, s.question = q ∧ terminalStatus s.status = false
        ∧ now - 2 * 60 * 60 * 1000 < s.createdAt)
    ∧ (∀ s, canResumeSession now sessions q = some s →
        s ∈ sessions ∧ s.question = q ∧ terminalStatus s.status = false
          ∧ now - 2 * 60 * 60 * 1000 < s.createdAt)
    ∧ (∀ (env : ServerEnv) (newId : String) (req : SubmitRequest) (k : String),
        req.question = some q → q ≠ "" → 10 ≤ q.length →
        env.openRouterApiKey = some k → req.sessionId = none →
        ∀ s, canResumeSession now sessions q = some s →
          postSubmit env now newId sessions req
            = (.resumeNotice s.id s.progress s.currentPhase, sessions)) := by
  refine ⟨?_, ?_, ?_⟩
  · unfold canResumeSession
    rw [List.find?_isSome]
    constructor
    · rintro ⟨x, hx, hpx⟩
      simp only [Bool.and_eq_true, beq_iff_eq, Bool.not_eq_true',
        decide_eq_true_eq] at hpx
      exact ⟨x, hx, hpx.1.1, hpx.1.2, hpx.2⟩
    · rintro ⟨s, hs, h1, h2, h3⟩
      exact ⟨s, hs, by simp [h1, h2]; omega⟩
  · intro s hfind
    have hmem := List.mem_of_find?_eq_some hfind
    have hp := List.find?_some hfind
    simp only [Bool.and_eq_true, beq_iff_eq, Bool.not_eq_true',
      decide_eq_true_eq] at hp
    exact ⟨hmem, hp.1.1, hp.1.2, hp.2⟩
  · intro env newId req k hq hne hlen hk hsid s hfind
    have hfalsy : jsFalsyStr (some q) = false := by
      simp [jsFalsyStr, hne]
    have h10 : ¬ q.length < 10 := by omega
    simp [postSubmit, hq, hfalsy, hk, h10, hsid, hfind]

/-- C8 witness: the notice branch at a concrete store — an in-flight
session with the same question created within 2 hours — where the endpoint
returns the resumable notice with that session's id, progress 70 and phase,
and the store is unchanged. -/
theorem c8_resumable_lookup_and_notice_witness :
    postSubmit envWithKey 1700004000000 "nid" [midRunSession]
      { question := some "What are the economic impacts of remote work?" }
      = (.resumeNotice "session_2_bbbbbb" 70 "Sources evaluated",
         [midRunSession]) :=
  (c8_resumable_lookup_and_notice 1700004000000 [midRunSession]
      "What are the economic impacts of remote work?").2.2
    envWithKey "nid"
    { question := some "What are the economic impacts of remote work?" }
    "sk-or-key" rfl (by decide) (by decide) rfl rfl midRunSession rfl

end Atlas
